import Mathlib

/-!
Verification development for the SmartCue desktop overlay.

Shallow embedding of the window-state and desktop-following coordinator:
  - geometry policy and directional nudge movement
    (src/src/services/WindowManager.js: calculateNewPosition, validateBounds,
    validatePosition, moveWindow),
  - the visibility and incognito state machine
    (WindowManager.js: toggleIncognitoMode, hideWindow, showWindow,
    toggleVisibility),
  - the manual-movement override timer
    (WindowManager.js: setManualMovementMode),
  - the desktop follower
    (src/src/services/DesktopFollower.js: detectDesktopChanges,
    hasDesktopChanged, followToCurrentDesktop, ensureWindowOnTop).

Coordinates are modelled as Int: every arithmetic operation on the verified
paths stays within JavaScript safe integers for integer inputs, so Int is an
exact model of the number semantics there.  Math.round applied to an integer
is the identity; Math.round(a / 2) for an integer a equals floor((a + 1) / 2),
modelled by jsRoundHalfDiv2.  The JavaScript falsy test !n on a number is
modelled as n = 0 on the integer fragment.
-/

namespace SmartCue

/-! Constants from src/src/config/appConfig.js (APP_CONFIG). -/

def WINDOW_WIDTH : Int := 400

def WINDOW_HEIGHT : Int := 100

def STEP_SIZE : Int := 50

def MOUSE_MOVEMENT_THRESHOLD : Int := 500

def MANUAL_MOVEMENT_TIMEOUT : Nat := 5000

def INCOGNITO_OPACITY : ℚ := mkRat 4 5

def INCOGNITO_CONTENT_PROTECTION : Bool := true

def INCOGNITO_SKIP_TASKBAR : Bool := true

def INCOGNITO_ALWAYS_ON_TOP : Bool := false

/-- Rectangle {x, y, width, height}, as returned by display.bounds and
window.getBounds in the source. -/
structure Bounds where
  x : Int
  y : Int
  width : Int
  height : Int
  deriving DecidableEq, Repr

/-- Math.round(a / 2) for an integer a: floor(a / 2 + 1 / 2). -/
def jsRoundHalfDiv2 (a : Int) : Int := Int.fdiv (a + 1) 2

/-- Nudge directions accepted by moveWindow in WindowManager.js. -/
inductive Direction
  | left
  | right
  | up
  | down
  deriving DecidableEq, Repr

/-- WindowManager.calculateNewPosition (WindowManager.js lines 336-376):
steps by STEP_SIZE along one axis, then clamps both axes into the desktop
bounds.  Math.round on the already-integer results is the identity. -/
def calculateNewPosition (direction : Direction) (currentPosition : Int × Int)
    (desktopBounds currentBounds : Bounds) : Int × Int :=
  let stepSize := STEP_SIZE
  let newX :=
    match direction with
    | .left => max desktopBounds.x (currentPosition.1 - stepSize)
    | .right =>
        min (desktopBounds.x + desktopBounds.width - currentBounds.width)
          (currentPosition.1 + stepSize)
    | _ => currentPosition.1
  let newY :=
    match direction with
    | .up => max desktopBounds.y (currentPosition.2 - stepSize)
    | .down =>
        min (desktopBounds.y + desktopBounds.height - currentBounds.height)
          (currentPosition.2 + stepSize)
    | _ => currentPosition.2
  let clampedX :=
    max desktopBounds.x
      (min (desktopBounds.x + desktopBounds.width - currentBounds.width) newX)
  let clampedY :=
    max desktopBounds.y
      (min (desktopBounds.y + desktopBounds.height - currentBounds.height) newY)
  (clampedX, clampedY)

/-- WindowManager.validateBounds (WindowManager.js lines 314-331).  The
source tests !desktopBounds.width and !desktopBounds.height (JS falsy, i.e.
zero on the integer fragment) for the desktop, and both the falsy test and
an explicit <= 0 test for the window dimensions. -/
def validateBounds (desktopBounds currentBounds : Bounds) : Bool :=
  if desktopBounds.width = 0 ∨ desktopBounds.height = 0 then false
  else if currentBounds.width = 0 ∨ currentBounds.height = 0 ∨
      currentBounds.width ≤ 0 ∨ currentBounds.height ≤ 0 then false
  else true

/-- WindowManager.validatePosition (WindowManager.js lines 381-387): rejects
NaN (absent on the integer fragment) and negative coordinates. -/
def validatePosition (position : Int × Int) : Bool :=
  if position.1 < 0 ∨ position.2 < 0 then false else true

/-- Effect of WindowManager.moveWindow (WindowManager.js lines 254-293) on
the window position: validate bounds, compute the new position, validate it,
and only then apply it; every rejected step leaves the position unchanged. -/
def moveWindowPos (direction : Direction) (currentPosition : Int × Int)
    (desktopBounds currentBounds : Bounds) : Int × Int :=
  if validateBounds desktopBounds currentBounds = false then currentPosition
  else
    let newPosition :=
      calculateNewPosition direction currentPosition desktopBounds currentBounds
    if validatePosition newPosition = false then currentPosition
    else newPosition

/-- Repeated nudges: fold moveWindowPos over a list of directions. -/
def nudgeSeq (desktopBounds currentBounds : Bounds) (dirs : List Direction)
    (p : Int × Int) : Int × Int :=
  dirs.foldl (fun q d => moveWindowPos d q desktopBounds currentBounds) p

/-- The display-bounds clamp region of the spec: x between bounds.x and
bounds.x + bounds.width - winWidth, and the same for y. -/
def inRegion (desktopBounds currentBounds : Bounds) (p : Int × Int) : Prop :=
  desktopBounds.x ≤ p.1 ∧
  p.1 ≤ desktopBounds.x + desktopBounds.width - currentBounds.width ∧
  desktopBounds.y ≤ p.2 ∧
  p.2 ≤ desktopBounds.y + desktopBounds.height - currentBounds.height

instance (desktopBounds currentBounds : Bounds) (p : Int × Int) :
    Decidable (inRegion desktopBounds currentBounds p) := by
  unfold inRegion
  infer_instance

/-! Visibility and incognito state machine (WindowManager.js). -/

/-- Window attributes driven by the state machine: the content-protection
flag, always-on-top layering, taskbar visibility and opacity. -/
structure WinAttrs where
  contentProtection : Bool
  alwaysOnTop : Bool
  skipTaskbar : Bool
  opacity : ℚ
  deriving DecidableEq, Repr

/-- Window-manager visibility state: current attributes, platform visibility
(mainWindow.isVisible) and the isIncognitoMode flag. -/
structure WMState where
  attrs : WinAttrs
  visible : Bool
  isIncognitoMode : Bool
  deriving DecidableEq, Repr

/-- State right after createWindow (WindowManager.js lines 24-70): window
shown, alwaysOnTop true, skipTaskbar false, default content protection and
opacity, incognito off. -/
def initWMState : WMState :=
  { attrs := { contentProtection := false, alwaysOnTop := true,
               skipTaskbar := false, opacity := 1 },
    visible := true, isIncognitoMode := false }

/-- Attribute set applied by enableIncognitoMode (WindowManager.js lines
158-165), from APP_CONFIG.INCOGNITO. -/
def incognitoAttrs : WinAttrs :=
  { contentProtection := INCOGNITO_CONTENT_PROTECTION,
    alwaysOnTop := INCOGNITO_ALWAYS_ON_TOP,
    skipTaskbar := INCOGNITO_SKIP_TASKBAR,
    opacity := INCOGNITO_OPACITY }

/-- Attribute set applied by disableIncognitoMode (WindowManager.js lines
170-178) and by the non-incognito branch of showWindow. -/
def normalAttrs : WinAttrs :=
  { contentProtection := false, alwaysOnTop := true,
    skipTaskbar := false, opacity := 1 }

/-- Attribute set applied by hideWindow (WindowManager.js lines 209-222). -/
def hiddenAttrs : WinAttrs :=
  { contentProtection := true, alwaysOnTop := false,
    skipTaskbar := true, opacity := 0 }

/-- WindowManager.enableIncognitoMode. -/
def enableIncognitoMode (s : WMState) : WMState :=
  { s with attrs := incognitoAttrs }

/-- WindowManager.disableIncognitoMode. -/
def disableIncognitoMode (s : WMState) : WMState :=
  { s with attrs := normalAttrs }

/-- WindowManager.toggleIncognitoMode (WindowManager.js lines 132-153):
guards only on window existence, flips isIncognitoMode, then applies the
corresponding attribute set.  There is no visibility check. -/
def toggleIncognitoMode (s : WMState) : WMState :=
  let s1 := { s with isIncognitoMode := !s.isIncognitoMode }
  if s1.isIncognitoMode then enableIncognitoMode s1 else disableIncognitoMode s1

/-- WindowManager.hideWindow (lines 209-222): applies the hidden attribute
set and hides the window. -/
def hideWindow (s : WMState) : WMState :=
  { s with attrs := hiddenAttrs, visible := false }

/-- WindowManager.showWindow (lines 227-249): applies the attribute set for
the current incognito flag, then shows and focuses the window. -/
def showWindow (s : WMState) : WMState :=
  let s1 := if s.isIncognitoMode then enableIncognitoMode s
            else { s with attrs := normalAttrs }
  { s1 with visible := true }

/-- WindowManager.toggleVisibility (lines 183-204): dispatches on
mainWindow.isVisible. -/
def toggleVisibility (s : WMState) : WMState :=
  if s.visible then hideWindow s else showWindow s

/-- The four transition operations of the visibility state machine. -/
inductive WMOp
  | toggleIncognitoOp
  | hideOp
  | showOp
  | toggleVisibilityOp
  deriving DecidableEq, Repr

/-- Apply one transition operation. -/
def applyOp : WMOp → WMState → WMState
  | .toggleIncognitoOp, s => toggleIncognitoMode s
  | .hideOp, s => hideWindow s
  | .showOp, s => showWindow s
  | .toggleVisibilityOp, s => toggleVisibility s

/-- Hidden windows are fully inert: whenever the window is hidden, its
attributes are the hidden attribute set (content-protection true, opacity 0,
taskbar-skip true, always-on-top false). -/
def hiddenInert (s : WMState) : Prop :=
  s.visible = false → s.attrs = hiddenAttrs

instance (s : WMState) : Decidable (hiddenInert s) := by
  unfold hiddenInert
  infer_instance

/-! Manual-movement override timer (WindowManager.setManualMovementMode,
WindowManager.js lines 298-309).  We model the hosting timer runtime
explicitly: a list of pending timeouts (id, fire time), clearTimeout removal
by id, and firing of a pending timeout running the callback body. -/

/-- Scheduler state around setManualMovementMode: the isManualMovement flag,
the stored manualMovementTimeout handle, the pending timeouts of the runtime
as (id, fire time) pairs, and the next fresh timer id. -/
structure SchedState where
  isManualMovement : Bool
  manualMovementTimeout : Option Nat
  timers : List (Nat × Nat)
  nextId : Nat
  deriving DecidableEq, Repr

/-- clearTimeout: removes the pending timeout with the given id, if any. -/
def clearTimeout (i : Nat) (ts : List (Nat × Nat)) : List (Nat × Nat) :=
  ts.filter (fun p => p.1 != i)

/-- WindowManager.setManualMovementMode at time now: sets the flag, clears
any stored timeout, and schedules a fresh timeout for
now + MANUAL_MOVEMENT_TIMEOUT, storing its handle. -/
def setManualMovementMode (now : Nat) (s : SchedState) : SchedState :=
  let ts :=
    match s.manualMovementTimeout with
    | some i => clearTimeout i s.timers
    | none => s.timers
  { isManualMovement := true,
    manualMovementTimeout := some s.nextId,
    timers := ts ++ [(s.nextId, now + MANUAL_MOVEMENT_TIMEOUT)],
    nextId := s.nextId + 1 }

/-- The runtime fires the timeout with id i: only a still-pending timeout
runs its callback (which resets isManualMovement to false); a cleared or
already-fired id is a no-op. -/
def fireManualMovementTimeout (i : Nat) (s : SchedState) : SchedState :=
  if s.timers.any (fun p => p.1 == i) then
    { s with isManualMovement := false, timers := clearTimeout i s.timers }
  else s

/-! Desktop follower (DesktopFollower.js).  Platform window commands are
recorded as an explicit trace, so that focus behaviour is observable. -/

/-- The level argument of setAlwaysOnTop(true, screen-saver). -/
inductive AOTLevel
  | screenSaver
  deriving DecidableEq, Repr

/-- Commands issued to the platform window handle. -/
inductive WinCmd
  | setPosition (x y : Int)
  | setAlwaysOnTop (flag : Bool) (level : Option AOTLevel)
  | setVisibleOnAllWorkspaces (flag : Bool)
  | setContentProtection (flag : Bool)
  | setSkipTaskbar (flag : Bool)
  | setOpacity (value : ℚ)
  | showWin
  | showInactiveWin
  | focusWin
  | moveTop
  | hideWin
  deriving DecidableEq, Repr

/-- Platform environment read during one tick: cursor position
(screen.getCursorScreenPoint), primary display bounds, window validity
(isWindowValid) and platform visibility (isVisible). -/
structure Env where
  cursorX : Int
  cursorY : Int
  primaryBounds : Bounds
  windowValid : Bool
  windowVisible : Bool
  deriving DecidableEq, Repr

/-- DesktopFollower state together with the window-manager fields it reads:
repositionCooldown, lastMousePosition, lastKnownDesktop, and the window
manager isIncognitoMode, isManualMovement and lastKnownPosition. -/
structure FollowerState where
  repositionCooldown : Bool
  lastMouseX : Int
  lastMouseY : Int
  lastKnownDesktop : Option Bounds
  isIncognitoMode : Bool
  isManualMovement : Bool
  lastKnownPositionX : Int
  lastKnownPositionY : Int
  deriving DecidableEq, Repr

/-- DesktopFollower.getCurrentDesktop (DesktopFollower.js lines 126-132):
the source renders the primary display bounds as the string
x-y-width-height; we model the identity by the bounds quadruple itself,
whose equality coincides with equality of those strings. -/
def getCurrentDesktop (env : Env) : Bounds := env.primaryBounds

/-- DesktopFollower.hasDesktopChanged (lines 97-121): detects coarse mouse
movement and a changed desktop identity, updating lastMousePosition and
lastKnownDesktop as a side effect, and returns whether either changed. -/
def hasDesktopChanged (env : Env) (s : FollowerState) : Bool × FollowerState :=
  let currentDesktop := getCurrentDesktop env
  let mouseMoved : Bool :=
    decide (MOUSE_MOVEMENT_THRESHOLD < |env.cursorX - s.lastMouseX| ∨
            MOUSE_MOVEMENT_THRESHOLD < |env.cursorY - s.lastMouseY|)
  let desktopChanged : Bool := decide (s.lastKnownDesktop ≠ some currentDesktop)
  let s1 := if mouseMoved then
      { s with lastMouseX := env.cursorX, lastMouseY := env.cursorY }
    else s
  let s2 := if desktopChanged then
      { s1 with lastKnownDesktop := some currentDesktop }
    else s1
  (mouseMoved || desktopChanged, s2)

/-- Commands issued by WindowManager.enableIncognitoMode, invoked from
followToCurrentDesktop when isIncognitoMode is set. -/
def enableIncognitoCmds : List WinCmd :=
  [ .setContentProtection INCOGNITO_CONTENT_PROTECTION,
    .setAlwaysOnTop INCOGNITO_ALWAYS_ON_TOP none,
    .setSkipTaskbar INCOGNITO_SKIP_TASKBAR,
    .setOpacity INCOGNITO_OPACITY ]

/-- Target x coordinate computed by followToCurrentDesktop:
Math.round((primaryBounds.width - WINDOW_WIDTH) / 2).  Only the width of the
primary display is read; its x origin is not added. -/
def followTargetX (env : Env) : Int :=
  jsRoundHalfDiv2 (env.primaryBounds.width - WINDOW_WIDTH)

/-- DesktopFollower.followToCurrentDesktop (DesktopFollower.js lines
137-184): no-op when the window is invalid, not visible, or the reposition
cooldown is armed; otherwise applies incognito attributes when active, then
issues setPosition, setAlwaysOnTop, setVisibleOnAllWorkspaces, show, focus
and moveTop, records the position, and arms the cooldown. -/
def followToCurrentDesktop (env : Env) (s : FollowerState) :
    FollowerState × List WinCmd :=
  if env.windowValid = false then (s, [])
  else if env.windowVisible = false then (s, [])
  else if s.repositionCooldown then (s, [])
  else
    let targetX := followTargetX env
    let targetY : Int := 50
    let incognitoCmds := if s.isIncognitoMode then enableIncognitoCmds else []
    ({ s with lastKnownPositionX := targetX, lastKnownPositionY := targetY,
              repositionCooldown := true },
     incognitoCmds ++
       [ .setPosition targetX targetY,
         .setAlwaysOnTop true (some .screenSaver),
         .setVisibleOnAllWorkspaces true,
         .showWin, .focusWin, .moveTop ])

/-- DesktopFollower.ensureWindowOnTop (lines 189-202). -/
def ensureWindowOnTop (env : Env) : List WinCmd :=
  if env.windowValid = false then []
  else if env.windowVisible = false then []
  else [ .setAlwaysOnTop true (some .screenSaver), .moveTop ]

/-- DesktopFollower.detectDesktopChanges (lines 69-92), the body of the
periodic tick: early return when the window is invalid, not visible, or
manual movement is active; otherwise run change detection, follow when a
change was detected, and reassert the top layering. -/
def detectDesktopChanges (env : Env) (s : FollowerState) :
    FollowerState × List WinCmd :=
  if env.windowValid = false then (s, [])
  else if env.windowVisible = false then (s, [])
  else if s.isManualMovement then (s, [])
  else
    let r := hasDesktopChanged env s
    let fr := if r.1 then followToCurrentDesktop env r.2 else (r.2, [])
    (fr.1, fr.2 ++ ensureWindowOnTop env)

/-! Helper lemmas shared by the geometry claims. -/

/-- The position computed by calculateNewPosition always lies in the
display-bounds clamp region, provided the window fits on the display. -/
theorem calculateNewPosition_mem (direction : Direction) (pos : Int × Int)
    (db cb : Bounds) (hw : cb.width ≤ db.width) (hh : cb.height ≤ db.height) :
    inRegion db cb (calculateNewPosition direction pos db cb) := by
  unfold calculateNewPosition inRegion
  cases direction <;> dsimp only <;> refine ⟨?_, ?_, ?_, ?_⟩ <;> omega

/-- One moveWindow step keeps the position in the clamp region. -/
theorem moveWindowPos_mem (direction : Direction) (pos : Int × Int)
    (db cb : Bounds) (hw : cb.width ≤ db.width) (hh : cb.height ≤ db.height)
    (hp : inRegion db cb pos) :
    inRegion db cb (moveWindowPos direction pos db cb) := by
  unfold moveWindowPos
  split
  · exact hp
  · dsimp only
    split
    · exact hp
    · exact calculateNewPosition_mem direction pos db cb hw hh

/-- A target with a negative coordinate fails validatePosition and leaves
the moveWindow position unchanged. -/
theorem moveWindowPos_unchanged_of_neg (direction : Direction)
    (pos : Int × Int) (db cb : Bounds)
    (h : (calculateNewPosition direction pos db cb).1 < 0 ∨
         (calculateNewPosition direction pos db cb).2 < 0) :
    validatePosition (calculateNewPosition direction pos db cb) = false ∧
    moveWindowPos direction pos db cb = pos := by
  have hv : validatePosition (calculateNewPosition direction pos db cb) = false := by
    unfold validatePosition
    rw [if_pos h]
  refine ⟨hv, ?_⟩
  unfold moveWindowPos
  split
  · rfl
  · simp [hv]

/-- Degenerate desktop or window dimensions make validateBounds fail. -/
theorem validateBounds_false_of (db cb : Bounds)
    (h : db.width = 0 ∨ db.height = 0 ∨ cb.width ≤ 0 ∨ cb.height ≤ 0) :
    validateBounds db cb = false := by
  unfold validateBounds
  split_ifs with h1 h2 <;> first | rfl | omega

/-- C6: for every nudge direction and starting position the computed target
satisfies the display-bounds clamp, any finite sequence of nudges starting
in bounds stays in bounds, and moveWindow right from x = 1870 with window
width 400 on the display 0 0 1920 1080 yields the clamped x = 1520. -/
theorem C6_nudge_always_clamped :
    (∀ (direction : Direction) (pos : Int × Int) (db cb : Bounds),
        cb.width ≤ db.width → cb.height ≤ db.height →
        inRegion db cb (calculateNewPosition direction pos db cb)) ∧
    (∀ (db cb : Bounds) (dirs : List Direction) (pos : Int × Int),
        cb.width ≤ db.width → cb.height ≤ db.height →
        inRegion db cb pos → inRegion db cb (nudgeSeq db cb dirs pos)) ∧
    moveWindowPos .right (1870, 50) ⟨0, 0, 1920, 1080⟩ ⟨1870, 50, 400, 100⟩ =
      (1520, 50) := by
  refine ⟨fun d p db cb hw hh => calculateNewPosition_mem d p db cb hw hh,
    ?_, by decide⟩
  intro db cb dirs
  induction dirs with
  | nil => exact fun pos hw hh hp => hp
  | cons d ds ih =>
      exact fun pos hw hh hp =>
        ih (moveWindowPos d pos db cb) hw hh (moveWindowPos_mem d pos db cb hw hh hp)

/-- C6 witness: a concrete nudge sequence from inside the display stays
inside the clamp region. -/
theorem C6_witness :
    inRegion ⟨0, 0, 1920, 1080⟩ ⟨0, 0, 400, 100⟩
      (nudgeSeq ⟨0, 0, 1920, 1080⟩ ⟨0, 0, 400, 100⟩
        [.right, .right, .down] (1500, 950)) :=
  C6_nudge_always_clamped.2.1 ⟨0, 0, 1920, 1080⟩ ⟨0, 0, 400, 100⟩
    [.right, .right, .down] (1500, 950) (by decide) (by decide) (by decide)

/-- C8 counterexample: a display with strictly negative width and height
(width -100 satisfies width <= 0) passes validateBounds, and moveWindow
right applies the clamped position 0 0, changing the window position instead
of rejecting the move. -/
theorem C8_counterexample :
    validateBounds ⟨0, 0, -100, -100⟩ ⟨10, 10, 400, 100⟩ = true ∧
    moveWindowPos .right (10, 10) ⟨0, 0, -100, -100⟩ ⟨10, 10, 400, 100⟩ = (0, 0) ∧
    ((0, 0) : Int × Int) ≠ (10, 10) := by
  decide

/-- C8 (amended): moveWindow rejects the move and leaves the position
unchanged when the display width or height is zero (the JS falsy test), when
the window width or height is nonpositive, or when the computed target has a
negative coordinate; strictly negative display dimensions, however, pass
validateBounds. -/
theorem C8_reject_cases (direction : Direction) (pos : Int × Int)
    (db cb : Bounds) :
    (db.width = 0 ∨ db.height = 0 ∨ cb.width ≤ 0 ∨ cb.height ≤ 0 →
      moveWindowPos direction pos db cb = pos) ∧
    ((calculateNewPosition direction pos db cb).1 < 0 ∨
     (calculateNewPosition direction pos db cb).2 < 0 →
      moveWindowPos direction pos db cb = pos) := by
  constructor
  · intro h
    unfold moveWindowPos
    simp [validateBounds_false_of db cb h]
  · intro h
    exact (moveWindowPos_unchanged_of_neg direction pos db cb h).2

/-- C8 witness: a zero-width display makes moveWindow a no-op. -/
theorem C8_witness :
    moveWindowPos .right (10, 10) ⟨0, 0, 0, 1080⟩ ⟨10, 10, 400, 100⟩ = (10, 10) :=
  (C8_reject_cases .right (10, 10) ⟨0, 0, 0, 1080⟩ ⟨10, 10, 400, 100⟩).1
    (by decide)

/-- C10: moveWindow never applies a position with a negative coordinate:
whenever the clamped target has x < 0 or y < 0, validatePosition rejects it
and the position is unchanged, and in general every applied position is
componentwise nonnegative or the position is unchanged. -/
theorem C10_no_negative_applied (direction : Direction) (pos : Int × Int)
    (db cb : Bounds) :
    ((calculateNewPosition direction pos db cb).1 < 0 ∨
     (calculateNewPosition direction pos db cb).2 < 0 →
      validatePosition (calculateNewPosition direction pos db cb) = false ∧
      moveWindowPos direction pos db cb = pos) ∧
    (moveWindowPos direction pos db cb = pos ∨
      (0 ≤ (moveWindowPos direction pos db cb).1 ∧
       0 ≤ (moveWindowPos direction pos db cb).2)) := by
  refine ⟨fun h => moveWindowPos_unchanged_of_neg direction pos db cb h, ?_⟩
  by_cases hneg : (calculateNewPosition direction pos db cb).1 < 0 ∨
      (calculateNewPosition direction pos db cb).2 < 0
  · exact Or.inl (moveWindowPos_unchanged_of_neg direction pos db cb hneg).2
  · unfold moveWindowPos
    split
    · exact Or.inl rfl
    · dsimp only
      split
      · exact Or.inl rfl
      · exact Or.inr ⟨by omega, by omega⟩

/-- C10 witness: on a display whose bounds begin at a negative x, a left
nudge computes the negative clamped target x = -400, which is rejected and
the position is unchanged. -/
theorem C10_witness :
    validatePosition
      (calculateNewPosition .left (-100, 50) ⟨-1920, 0, 1920, 1080⟩
        ⟨-100, 50, 400, 100⟩) = false ∧
    moveWindowPos .left (-100, 50) ⟨-1920, 0, 1920, 1080⟩ ⟨-100, 50, 400, 100⟩ =
      (-100, 50) :=
  (C10_no_negative_applied .left (-100, 50) ⟨-1920, 0, 1920, 1080⟩
    ⟨-100, 50, 400, 100⟩).1 (by decide)

/-! Visibility state machine claims. -/

/-- toggleIncognitoMode changes only the attributes and the flag, never the
platform visibility. -/
theorem toggleIncognitoMode_visible (s : WMState) :
    (toggleIncognitoMode s).visible = s.visible := by
  unfold toggleIncognitoMode enableIncognitoMode disableIncognitoMode
  cases s.isIncognitoMode <;> rfl

/-- showWindow always ends with the window visible. -/
theorem showWindow_visible (s : WMState) : (showWindow s).visible = true := rfl

/-- C4 counterexample: from the initial state, hideWindow followed by
toggleIncognitoMode leaves the window Hidden with opacity 0.8, violating the
Hidden-implies-opacity-0 invariant; a second toggleIncognitoMode while still
Hidden even clears content protection and restores always-on-top. -/
theorem C4_counterexample :
    (applyOp .toggleIncognitoOp (applyOp .hideOp initWMState)).visible = false ∧
    (applyOp .toggleIncognitoOp (applyOp .hideOp initWMState)).attrs.opacity ≠ 0 ∧
    (applyOp .toggleIncognitoOp (applyOp .toggleIncognitoOp
        (applyOp .hideOp initWMState))).visible = false ∧
    (applyOp .toggleIncognitoOp (applyOp .toggleIncognitoOp
        (applyOp .hideOp initWMState))).attrs.contentProtection = false ∧
    (applyOp .toggleIncognitoOp (applyOp .toggleIncognitoOp
        (applyOp .hideOp initWMState))).attrs.alwaysOnTop = true := by
  decide

/-- C4 (amended): the Hidden-inert invariant (content-protection true,
opacity 0, taskbar-skip true, always-on-top false whenever the window is
hidden) holds initially and is preserved by hide, show and toggleVisibility
from any state, and by toggleIncognito from Shown states; toggleIncognito
invoked while Hidden is the one transition that breaks it. -/
theorem C4_hidden_inert_guarded :
    hiddenInert initWMState ∧
    ∀ (s : WMState) (op : WMOp), hiddenInert s →
      (op = WMOp.toggleIncognitoOp → s.visible = true) →
      hiddenInert (applyOp op s) := by
  constructor
  · intro h
    exact absurd h (by decide)
  · intro s op hinv hguard
    cases op with
    | toggleIncognitoOp =>
        intro hvis
        rw [show applyOp .toggleIncognitoOp s = toggleIncognitoMode s from rfl,
          toggleIncognitoMode_visible, hguard rfl] at hvis
        exact absurd hvis (by decide)
    | hideOp =>
        intro hvis
        rfl
    | showOp =>
        intro hvis
        rw [show applyOp .showOp s = showWindow s from rfl,
          showWindow_visible] at hvis
        exact absurd hvis (by decide)
    | toggleVisibilityOp =>
        show hiddenInert (toggleVisibility s)
        unfold toggleVisibility
        split
        · intro hvis
          rfl
        · intro hvis
          rw [showWindow_visible] at hvis
          exact absurd hvis (by decide)

/-- C4 witness: the guarded preservation applied to hideWindow from the
initial state. -/
theorem C4_witness : hiddenInert (applyOp .hideOp initWMState) :=
  C4_hidden_inert_guarded.2 initWMState .hideOp (by decide) (by decide)

/-- C5 counterexample: toggleIncognitoMode invoked on the hidden initial
state is not a no-op: it flips the incognito flag and changes the window
attributes. -/
theorem C5_counterexample :
    (hideWindow initWMState).visible = false ∧
    (toggleIncognitoMode (hideWindow initWMState)).isIncognitoMode ≠
      (hideWindow initWMState).isIncognitoMode ∧
    (toggleIncognitoMode (hideWindow initWMState)).attrs ≠
      (hideWindow initWMState).attrs := by
  decide

/-- C5 (amended): toggleIncognitoMode guards only on window existence, so
called while Hidden it flips the incognito flag and applies the matching
incognito or normal attribute set, leaving the window hidden; there is no
ignored-call guard for the Hidden state. -/
theorem C5_toggle_while_hidden (s : WMState) (h : s.visible = false) :
    toggleIncognitoMode s =
      { attrs := if s.isIncognitoMode then normalAttrs else incognitoAttrs,
        visible := false,
        isIncognitoMode := !s.isIncognitoMode } := by
  rcases s with ⟨a, v, f⟩
  simp only at h
  subst h
  cases f <;> rfl

/-- C5 witness: toggling incognito on the hidden initial state applies the
incognito attribute set and sets the flag. -/
theorem C5_witness :
    toggleIncognitoMode (hideWindow initWMState) =
      { attrs := if (hideWindow initWMState).isIncognitoMode then normalAttrs
                 else incognitoAttrs,
        visible := false,
        isIncognitoMode := !(hideWindow initWMState).isIncognitoMode } :=
  C5_toggle_while_hidden (hideWindow initWMState) (by decide)

/-! Manual-override timer claim. -/

/-- C7: calling setManualMovementMode twice within the suppression window
leaves the flag set with exactly one pending timeout, timed
MANUAL_MOVEMENT_TIMEOUT after the second call; the superseded first timeout
is cancelled, so firing its id is a no-op, while firing the surviving
timeout clears the flag and empties the queue. -/
theorem C7_last_call_wins (s : SchedState) (t1 t2 : Nat)
    (hts : s.timers = []) (h12 : t1 ≤ t2)
    (hwin : t2 < t1 + MANUAL_MOVEMENT_TIMEOUT) :
    (setManualMovementMode t2 (setManualMovementMode t1 s)).isManualMovement =
      true ∧
    (setManualMovementMode t2 (setManualMovementMode t1 s)).timers =
      [(s.nextId + 1, t2 + MANUAL_MOVEMENT_TIMEOUT)] ∧
    fireManualMovementTimeout s.nextId
        (setManualMovementMode t2 (setManualMovementMode t1 s)) =
      setManualMovementMode t2 (setManualMovementMode t1 s) ∧
    (fireManualMovementTimeout (s.nextId + 1)
        (setManualMovementMode t2 (setManualMovementMode t1 s))).isManualMovement =
      false ∧
    (fireManualMovementTimeout (s.nextId + 1)
        (setManualMovementMode t2 (setManualMovementMode t1 s))).timers = [] := by
  rcases s with ⟨m, mt, ts, n⟩
  simp only at hts
  subst hts
  cases mt <;>
    simp [setManualMovementMode, fireManualMovementTimeout, clearTimeout]

/-- C7 witness: two calls at times 0 and 1000 leave one pending expiry at
6000, the first timer id is dead, and firing the second clears the flag. -/
theorem C7_witness :
    (setManualMovementMode 1000 (setManualMovementMode 0
        ⟨false, none, [], 0⟩)).isManualMovement = true ∧
    (setManualMovementMode 1000 (setManualMovementMode 0
        ⟨false, none, [], 0⟩)).timers = [(1, 6000)] ∧
    fireManualMovementTimeout 0
        (setManualMovementMode 1000 (setManualMovementMode 0
          ⟨false, none, [], 0⟩)) =
      setManualMovementMode 1000 (setManualMovementMode 0
        ⟨false, none, [], 0⟩) ∧
    (fireManualMovementTimeout 1
        (setManualMovementMode 1000 (setManualMovementMode 0
          ⟨false, none, [], 0⟩))).isManualMovement = false ∧
    (fireManualMovementTimeout 1
        (setManualMovementMode 1000 (setManualMovementMode 0
          ⟨false, none, [], 0⟩))).timers = [] :=
  C7_last_call_wins ⟨false, none, [], 0⟩ 0 1000 rfl (by decide) (by decide)

/-! Helper lemmas about the desktop follower. -/

/-- hasDesktopChanged only touches the mouse and desktop bookkeeping; the
cooldown, manual-movement and incognito fields pass through unchanged. -/
theorem hasDesktopChanged_flags (env : Env) (s : FollowerState) :
    (hasDesktopChanged env s).2.repositionCooldown = s.repositionCooldown ∧
    (hasDesktopChanged env s).2.isManualMovement = s.isManualMovement ∧
    (hasDesktopChanged env s).2.isIncognitoMode = s.isIncognitoMode := by
  unfold hasDesktopChanged
  dsimp only
  split <;> split <;> simp

/-- After hasDesktopChanged runs, lastKnownDesktop always holds the current
desktop identity: either it was just stored, or it already matched. -/
theorem hasDesktopChanged_desktop (env : Env) (s : FollowerState) :
    (hasDesktopChanged env s).2.lastKnownDesktop =
      some (getCurrentDesktop env) := by
  unfold hasDesktopChanged
  dsimp only
  split
  · rfl
  · rename_i hnot
    simp only [decide_eq_true_eq, ne_eq, Decidable.not_not] at hnot
    split <;> simpa using hnot

/-- After hasDesktopChanged runs, the stored mouse position is within the
movement threshold of the current cursor: either it was just updated to the
cursor, or it was already within the threshold. -/
theorem hasDesktopChanged_mouse_stable (env : Env) (s : FollowerState) :
    ¬(MOUSE_MOVEMENT_THRESHOLD <
        |env.cursorX - (hasDesktopChanged env s).2.lastMouseX| ∨
      MOUSE_MOVEMENT_THRESHOLD <
        |env.cursorY - (hasDesktopChanged env s).2.lastMouseY|) := by
  unfold hasDesktopChanged
  dsimp only
  by_cases hm : MOUSE_MOVEMENT_THRESHOLD < |env.cursorX - s.lastMouseX| ∨
      MOUSE_MOVEMENT_THRESHOLD < |env.cursorY - s.lastMouseY|
  · simp only [decide_eq_true hm]
    split <;> simp [MOUSE_MOVEMENT_THRESHOLD]
  · simp only [decide_eq_false hm]
    split <;> simpa using hm

/-- hasDesktopChanged reports a change whenever the stored desktop identity
differs from the current one. -/
theorem hasDesktopChanged_true_of_desktop (env : Env) (s : FollowerState)
    (hd : s.lastKnownDesktop ≠ some (getCurrentDesktop env)) :
    (hasDesktopChanged env s).1 = true := by
  unfold hasDesktopChanged
  simp [hd]

/-- hasDesktopChanged reports no change when the mouse is within the
threshold and the desktop identity matches. -/
theorem hasDesktopChanged_false_of (env : Env) (s : FollowerState)
    (hmouse : ¬(MOUSE_MOVEMENT_THRESHOLD < |env.cursorX - s.lastMouseX| ∨
                MOUSE_MOVEMENT_THRESHOLD < |env.cursorY - s.lastMouseY|))
    (hdesk : s.lastKnownDesktop = some (getCurrentDesktop env)) :
    (hasDesktopChanged env s).1 = false := by
  unfold hasDesktopChanged
  simp [hmouse, hdesk]

/-- The command trace and state produced by an eligible
followToCurrentDesktop call: incognito attributes when active, then
position, layering, workspace visibility, show, focus, moveTop; the state
records the target position and arms the cooldown. -/
theorem follow_emits (env : Env) (s : FollowerState)
    (hv : env.windowValid = true) (hvis : env.windowVisible = true)
    (hc : s.repositionCooldown = false) :
    (followToCurrentDesktop env s).2 =
      (if s.isIncognitoMode then enableIncognitoCmds else []) ++
        [ .setPosition (followTargetX env) 50,
          .setAlwaysOnTop true (some .screenSaver),
          .setVisibleOnAllWorkspaces true,
          .showWin, .focusWin, .moveTop ] ∧
    (followToCurrentDesktop env s).1 =
      { s with lastKnownPositionX := followTargetX env,
               lastKnownPositionY := 50, repositionCooldown := true } := by
  unfold followToCurrentDesktop
  simp [hv, hvis, hc]

/-- An armed cooldown makes followToCurrentDesktop a pure no-op. -/
theorem follow_noop_of_cooldown (env : Env) (s : FollowerState)
    (hc : s.repositionCooldown = true) :
    followToCurrentDesktop env s = (s, []) := by
  unfold followToCurrentDesktop
  split
  · rfl
  · split
    · rfl
    · simp [hc]

/-- When the cooldown is armed or no change is detected, the tick reduces
to the change-detection bookkeeping plus the top-layer reassertion. -/
theorem detect_noreposition (env : Env) (s : FollowerState)
    (hv : env.windowValid = true) (hvis : env.windowVisible = true)
    (hm : s.isManualMovement = false)
    (h : s.repositionCooldown = true ∨ (hasDesktopChanged env s).1 = false) :
    detectDesktopChanges env s =
      ((hasDesktopChanged env s).2, ensureWindowOnTop env) := by
  unfold detectDesktopChanges
  rcases h with hc | hch
  · have hfol : followToCurrentDesktop env (hasDesktopChanged env s).2 =
        ((hasDesktopChanged env s).2, []) :=
      follow_noop_of_cooldown env _
        (by rw [(hasDesktopChanged_flags env s).1, hc])
    cases hr : (hasDesktopChanged env s).1 <;> simp [hv, hvis, hm, hr, hfol]
  · simp [hv, hvis, hm, hch]

/-- When change detection fires with the cooldown clear, the tick runs the
full reposition followed by the top-layer reassertion. -/
theorem detect_reposition_eq (env : Env) (s : FollowerState)
    (hv : env.windowValid = true) (hvis : env.windowVisible = true)
    (hm : s.isManualMovement = false)
    (hchange : (hasDesktopChanged env s).1 = true) :
    detectDesktopChanges env s =
      ((followToCurrentDesktop env (hasDesktopChanged env s).2).1,
       (followToCurrentDesktop env (hasDesktopChanged env s).2).2 ++
         ensureWindowOnTop env) := by
  unfold detectDesktopChanges
  simp [hv, hvis, hm, hchange]

/-! Desktop follower claims. -/

/-- C1 counterexample: at a state with a valid, visible window and a clear
cooldown, followToCurrentDesktop issues an explicit focus command (show then
focus) and never showInactive; the overlay takes input focus. -/
theorem C1_counterexample :
    (⟨false, 0, 0, none, false, false, 0, 50⟩ :
        FollowerState).repositionCooldown = false ∧
    (⟨0, 0, ⟨0, 0, 1920, 1080⟩, true, true⟩ : Env).windowValid = true ∧
    (⟨0, 0, ⟨0, 0, 1920, 1080⟩, true, true⟩ : Env).windowVisible = true ∧
    WinCmd.focusWin ∈
      (followToCurrentDesktop ⟨0, 0, ⟨0, 0, 1920, 1080⟩, true, true⟩
        ⟨false, 0, 0, none, false, false, 0, 50⟩).2 ∧
    WinCmd.showInactiveWin ∉
      (followToCurrentDesktop ⟨0, 0, ⟨0, 0, 1920, 1080⟩, true, true⟩
        ⟨false, 0, 0, none, false, false, 0, 50⟩).2 := by
  decide

/-- C1 (amended): for every state with a valid, visible window and a clear
cooldown, followToCurrentDesktop commands the new position, reasserts
always-on-top and all-workspaces visibility, and then shows the window via a
focus-taking show: show followed by focus and moveTop, never showInactive;
the overlay does take input focus. -/
theorem C1_follow_takes_focus (env : Env) (s : FollowerState)
    (hv : env.windowValid = true) (hvis : env.windowVisible = true)
    (hc : s.repositionCooldown = false) :
    (followToCurrentDesktop env s).2 =
      (if s.isIncognitoMode then enableIncognitoCmds else []) ++
        [ .setPosition (followTargetX env) 50,
          .setAlwaysOnTop true (some .screenSaver),
          .setVisibleOnAllWorkspaces true,
          .showWin, .focusWin, .moveTop ] ∧
    WinCmd.focusWin ∈ (followToCurrentDesktop env s).2 ∧
    WinCmd.showInactiveWin ∉ (followToCurrentDesktop env s).2 := by
  obtain ⟨he, -⟩ := follow_emits env s hv hvis hc
  rw [he]
  refine ⟨rfl, ?_, ?_⟩ <;> cases s.isIncognitoMode <;> simp [enableIncognitoCmds]

/-- C1 witness: the amended statement at a concrete eligible state. -/
theorem C1_witness :
    (followToCurrentDesktop ⟨5, 5, ⟨0, 0, 1440, 900⟩, true, true⟩
        ⟨false, 0, 0, none, true, false, 0, 50⟩).2 =
      (if (⟨false, 0, 0, none, true, false, 0, 50⟩ :
            FollowerState).isIncognitoMode then enableIncognitoCmds else []) ++
        [ .setPosition (followTargetX ⟨5, 5, ⟨0, 0, 1440, 900⟩, true, true⟩) 50,
          .setAlwaysOnTop true (some .screenSaver),
          .setVisibleOnAllWorkspaces true,
          .showWin, .focusWin, .moveTop ] ∧
    WinCmd.focusWin ∈
      (followToCurrentDesktop ⟨5, 5, ⟨0, 0, 1440, 900⟩, true, true⟩
        ⟨false, 0, 0, none, true, false, 0, 50⟩).2 ∧
    WinCmd.showInactiveWin ∉
      (followToCurrentDesktop ⟨5, 5, ⟨0, 0, 1440, 900⟩, true, true⟩
        ⟨false, 0, 0, none, true, false, 0, 50⟩).2 :=
  C1_follow_takes_focus ⟨5, 5, ⟨0, 0, 1440, 900⟩, true, true⟩
    ⟨false, 0, 0, none, true, false, 0, 50⟩ rfl rfl rfl

/-- C2 counterexample: the display-change event path enters via
followToCurrentDesktop directly, which never consults isManualMovement: at a
state with the manual flag set (and valid, visible window, clear cooldown)
it still emits a setPosition command. -/
theorem C2_counterexample :
    (⟨false, 0, 0, none, false, true, 0, 50⟩ :
        FollowerState).isManualMovement = true ∧
    WinCmd.setPosition 760 50 ∈
      (followToCurrentDesktop ⟨0, 0, ⟨0, 0, 1920, 1080⟩, true, true⟩
        ⟨false, 0, 0, none, false, true, 0, 50⟩).2 := by
  decide

/-- C2 (amended): on the periodic tick the manual-movement flag fully
suppresses the follower, which returns without issuing any command or
changing state; and once the flag has cleared, the next tick that detects a
desktop change with the cooldown clear does emit the reposition command.
(The display-change event path is not covered: it calls
followToCurrentDesktop directly, bypassing the flag, as the counterexample
shows.) -/
theorem C2_tick_suppression :
    (∀ (env : Env) (s : FollowerState), s.isManualMovement = true →
        detectDesktopChanges env s = (s, [])) ∧
    (∀ (env : Env) (s : FollowerState), env.windowValid = true →
        env.windowVisible = true → s.isManualMovement = false →
        s.repositionCooldown = false →
        s.lastKnownDesktop ≠ some (getCurrentDesktop env) →
        WinCmd.setPosition (followTargetX env) 50 ∈
          (detectDesktopChanges env s).2) := by
  constructor
  · intro env s hm
    unfold detectDesktopChanges
    split_ifs with h1 h2 h3 <;> simp_all
  · intro env s hv hvis hm hc hd
    have hchange := hasDesktopChanged_true_of_desktop env s hd
    rw [detect_reposition_eq env s hv hvis hm hchange]
    have hc2 : (hasDesktopChanged env s).2.repositionCooldown = false := by
      rw [(hasDesktopChanged_flags env s).1, hc]
    obtain ⟨he, -⟩ := follow_emits env (hasDesktopChanged env s).2 hv hvis hc2
    rw [he]
    simp

/-- C2 witness: suppression and subsequent reposition at concrete states. -/
theorem C2_witness :
    detectDesktopChanges ⟨0, 0, ⟨0, 0, 1920, 1080⟩, true, true⟩
        ⟨false, 0, 0, none, false, true, 0, 50⟩ =
      (⟨false, 0, 0, none, false, true, 0, 50⟩, []) ∧
    WinCmd.setPosition
        (followTargetX ⟨0, 0, ⟨0, 0, 1920, 1080⟩, true, true⟩) 50 ∈
      (detectDesktopChanges ⟨0, 0, ⟨0, 0, 1920, 1080⟩, true, true⟩
        ⟨false, 0, 0, none, false, false, 0, 50⟩).2 :=
  ⟨C2_tick_suppression.1 ⟨0, 0, ⟨0, 0, 1920, 1080⟩, true, true⟩
      ⟨false, 0, 0, none, false, true, 0, 50⟩ rfl,
   C2_tick_suppression.2 ⟨0, 0, ⟨0, 0, 1920, 1080⟩, true, true⟩
      ⟨false, 0, 0, none, false, false, 0, 50⟩ rfl rfl rfl rfl (by decide)⟩

/-- C3 counterexample: after the primary display changes from 0 0 1920 1080
to 1920 0 1920 1080 with the window shown and normal, the next tick does not
reposition to x = 2680: it emits setPosition 760 50, computed from the
display width alone, and 760 lies outside the x range of the new display. -/
theorem C3_counterexample :
    WinCmd.setPosition 2680 50 ∉
      (detectDesktopChanges ⟨0, 0, ⟨1920, 0, 1920, 1080⟩, true, true⟩
        ⟨false, 0, 0, some ⟨0, 0, 1920, 1080⟩, false, false, 0, 50⟩).2 ∧
    WinCmd.setPosition 760 50 ∈
      (detectDesktopChanges ⟨0, 0, ⟨1920, 0, 1920, 1080⟩, true, true⟩
        ⟨false, 0, 0, some ⟨0, 0, 1920, 1080⟩, false, false, 0, 50⟩).2 ∧
    ¬ inRegion ⟨1920, 0, 1920, 1080⟩ ⟨760, 50, 400, 100⟩ (760, 50) := by
  decide

/-- C3 (amended): in that scenario the next tick stores the new desktop
identity, repositions to x = round((1920 - 400) / 2) = 760, y = 50 — the
computation reads only the primary display width and ignores its x origin —
and rearms the reposition cooldown. -/
theorem C3_reposition_uses_width_only :
    detectDesktopChanges ⟨0, 0, ⟨1920, 0, 1920, 1080⟩, true, true⟩
        ⟨false, 0, 0, some ⟨0, 0, 1920, 1080⟩, false, false, 0, 50⟩ =
      (⟨true, 0, 0, some ⟨1920, 0, 1920, 1080⟩, false, false, 760, 50⟩,
       [ .setPosition 760 50,
         .setAlwaysOnTop true (some .screenSaver),
         .setVisibleOnAllWorkspaces true,
         .showWin, .focusWin, .moveTop,
         .setAlwaysOnTop true (some .screenSaver), .moveTop ]) := by
  decide

/-- C9: when a tick detects a desktop-identity change while the reposition
cooldown is armed, the new identity is stored by the detection step, no
reposition command is issued on that tick, and — the change having been
consumed — the next tick in the same environment after the cooldown clears
issues no reposition either. -/
theorem C9_change_consumed (env : Env) (s : FollowerState)
    (hv : env.windowValid = true) (hvis : env.windowVisible = true)
    (hm : s.isManualMovement = false) (hc : s.repositionCooldown = true)
    (hd : s.lastKnownDesktop ≠ some (getCurrentDesktop env)) :
    (detectDesktopChanges env s).1.lastKnownDesktop =
      some (getCurrentDesktop env) ∧
    (∀ x y, WinCmd.setPosition x y ∉ (detectDesktopChanges env s).2) ∧
    (∀ x y, WinCmd.setPosition x y ∉
      (detectDesktopChanges env
        { (detectDesktopChanges env s).1 with
            repositionCooldown := false }).2) := by
  have heq := detect_noreposition env s hv hvis hm (Or.inl hc)
  refine ⟨?_, ?_, ?_⟩
  · rw [heq]
    exact hasDesktopChanged_desktop env s
  · intro x y
    rw [heq]
    unfold ensureWindowOnTop
    split_ifs <;> simp
  · intro x y
    rw [heq]
    have hm2 : ({ (hasDesktopChanged env s).2 with
        repositionCooldown := false } : FollowerState).isManualMovement =
        false := by
      show (hasDesktopChanged env s).2.isManualMovement = false
      rw [(hasDesktopChanged_flags env s).2.1, hm]
    have hch2 : (hasDesktopChanged env
        ({ (hasDesktopChanged env s).2 with
            repositionCooldown := false } : FollowerState)).1 = false := by
      refine hasDesktopChanged_false_of env _ ?_ ?_
      · exact hasDesktopChanged_mouse_stable env s
      · show (hasDesktopChanged env s).2.lastKnownDesktop =
          some (getCurrentDesktop env)
        exact hasDesktopChanged_desktop env s
    rw [detect_noreposition env _ hv hvis hm2 (Or.inr hch2)]
    unfold ensureWindowOnTop
    split_ifs <;> simp

/-- C9 witness: the consumed-change property at a concrete armed-cooldown
state where the desktop identity just changed. -/
theorem C9_witness :
    (detectDesktopChanges ⟨0, 0, ⟨1920, 0, 1920, 1080⟩, true, true⟩
        ⟨true, 0, 0, some ⟨0, 0, 1920, 1080⟩, false, false, 0, 50⟩).1.lastKnownDesktop =
      some (getCurrentDesktop ⟨0, 0, ⟨1920, 0, 1920, 1080⟩, true, true⟩) ∧
    (∀ x y, WinCmd.setPosition x y ∉
      (detectDesktopChanges ⟨0, 0, ⟨1920, 0, 1920, 1080⟩, true, true⟩
        ⟨true, 0, 0, some ⟨0, 0, 1920, 1080⟩, false, false, 0, 50⟩).2) ∧
    (∀ x y, WinCmd.setPosition x y ∉
      (detectDesktopChanges ⟨0, 0, ⟨1920, 0, 1920, 1080⟩, true, true⟩
        { (detectDesktopChanges ⟨0, 0, ⟨1920, 0, 1920, 1080⟩, true, true⟩
            ⟨true, 0, 0, some ⟨0, 0, 1920, 1080⟩, false, false, 0, 50⟩).1 with
            repositionCooldown := false }).2) :=
  C9_change_consumed ⟨0, 0, ⟨1920, 0, 1920, 1080⟩, true, true⟩
    ⟨true, 0, 0, some ⟨0, 0, 1920, 1080⟩, false, false, 0, 50⟩
    rfl rfl rfl rfl (by decide)

end SmartCue
